import Mathlib

/-!
Verification of the window-placement and scroll-synchronization layer of
gnvim (`src/ui/window.rs`).

Shallow embedding conventions:
* `f64` values are modelled as `ℚ`; the Rust casts `x.floor() as i32`,
  `x.ceil() as i32` become `⌊x⌋`, `⌈x⌉ : ℤ`, and a plain `x as i32` cast
  (truncation toward zero) becomes `f64toi32`.
* GTK side effects are modelled by explicit state fields on `Window` /
  `MsgWindow`: where the overlay widget is parented (`OverlayLoc`), which
  floating toplevel windows are currently open (`openWins`), the last
  `Fixed::move_` coordinates (`canvasMove`), the last
  `set_size_request` arguments (`sizeReq`), and whether the grid's
  drawable widget is still alive (`gridAlive` — nothing in this file may
  destroy it, only detach it).
* `glib::signal_handler_block`/`unblock` on the adjustment's
  `value_changed` handler is the `blocked` flag; emitting the signal
  produces a list of dispatched remote commands (the strings passed to
  `nvim.input`), empty while blocked.
-/

namespace Gnvim

/-- Truncation toward zero: the behaviour of Rust's `as i32` cast on a
finite non-negative-or-negative `f64` value. -/
def f64toi32 (q : ℚ) : ℤ := if 0 ≤ q then ⌊q⌋ else ⌈q⌉

/-- Rust's `str::repeat`: `op.repeat n` is `op` concatenated `n` times. -/
def strRepeat (op : String) : ℕ → String
  | 0 => ""
  | n + 1 => op ++ strRepeat op n

/-- The state of a `gtk::Adjustment` as set by `Adjustment::configure`. -/
structure AdjState where
  value : ℚ
  lower : ℚ
  upper : ℚ
  step_increment : ℚ
  page_increment : ℚ
  page_size : ℚ
deriving DecidableEq

/-- Where the `Window`'s overlay widget is currently parented. -/
inductive OverlayLoc where
  | canvas
  | external (id : ℕ)
  | detached
deriving DecidableEq

/-- State of one `Window` (struct `Window` in `src/ui/window.rs`).
`blocked` models the signal block on `adj_changed_signal_id`;
`last_value`/`cell_height` are the two `Rc<RefCell<f64>>` cells shared
with the `value_changed` closure; `external_win` is the `Option<gtk::Window>`
field; `openWins` tracks the floating toplevels created and not yet
closed; `overlayChild` is the grid widget added to the overlay; `x`, `y`
are the public position fields. -/
structure Window where
  blocked : Bool
  adj : AdjState
  last_value : ℚ
  cell_height : ℚ
  x : ℚ
  y : ℚ
  grid_id : ℤ
  overlayLoc : OverlayLoc
  external_win : Option ℕ
  openWins : List ℕ
  nextWin : ℕ
  canvasMove : ℤ × ℤ
  sizeReq : ℤ × ℤ
  overlayChild : Option ℕ
  gridAlive : Bool
deriving DecidableEq

namespace Window

/-- `Window::new`: overlay put on the canvas at `(0,0)` holding the grid's
widget, adjustment all zeros, `last_value = 0.0`, `cell_height = 0.0`,
no external window. -/
def new (grid_widget : ℕ) (grid_id : ℤ) : Window :=
  { blocked := false
    adj := ⟨0, 0, 0, 0, 0, 0⟩
    last_value := 0
    cell_height := 0
    x := 0
    y := 0
    grid_id := grid_id
    overlayLoc := OverlayLoc.canvas
    external_win := none
    openWins := []
    nextWin := 0
    canvasMove := (0, 0)
    sizeReq := (-1, -1)
    overlayChild := some grid_widget
    gridAlive := true }

/-- The command string built by the `adj.connect_value_changed` closure:
`let last_value = *last_value.borrow() / cell_height;`
`let d = (last_value - adj.get_value() / cell_height).ceil();`
`let op = if d < 0.0 { "<C-e>" } else { "<C-y>" };`
`let cmd = format!("{}", op.repeat(d.abs() as usize));`. -/
def value_changed_cmd (last_value cell_height value : ℚ) : String :=
  let lv := last_value / cell_height
  let d : ℤ := ⌈lv - value / cell_height⌉
  let op := if d < 0 then "<C-e>" else "<C-y>"
  strRepeat op d.natAbs

/-- Emission of the adjustment's `value_changed` signal: the connected
closure runs (spawning one `nvim.input(cmd)` remote call) unless the
handler is blocked. Returns the list of dispatched command strings. -/
def emit_value_changed (s : Window) : List String :=
  if s.blocked then []
  else [value_changed_cmd s.last_value s.cell_height s.adj.value]

/-- An unsuppressed-path adjustment value change (user drag / scroll
wheel): the adjustment's value becomes `v` and the `value_changed`
signal is emitted. -/
def user_set_value (s : Window) (v : ℚ) : Window × List String :=
  let s1 : Window := { s with adj := { s.adj with value := v } }
  (s1, emit_value_changed s1)

/-- `Window::set_adjustment`: block the `value_changed` handler, call
`adj.configure(...)` (which emits `value_changed`, swallowed by the
block), store `last_value` and `cell_height`, unblock. Returns the new
state and the remote commands dispatched during the call. -/
def set_adjustment (s : Window)
    (value lower upper step_increment page_increment page_size
     cell_height : ℚ) : Window × List String :=
  let s1 : Window := { s with blocked := true }
  let s2 : Window :=
    { s1 with
      adj := ⟨value, lower, upper, step_increment, page_increment,
              page_size⟩ }
  let out := emit_value_changed s2
  let s3 : Window := { s2 with last_value := value, cell_height := cell_height }
  let s4 : Window := { s3 with blocked := false }
  (s4, out)

/-- `Window::set_external`: if `external_win` is already `Some`, return
immediately; otherwise request `size`, create a new toplevel, move the
overlay from the canvas into it, show it, and remember it in
`external_win`. The `parent` argument is only used as the
transient-for/attached-to anchor of the created toplevel. -/
def set_external (s : Window) (_parent : ℕ) (size : ℤ × ℤ) : Window :=
  if s.external_win.isSome then s
  else
    { s with
      sizeReq := size
      overlayLoc := OverlayLoc.external s.nextWin
      openWins := s.nextWin :: s.openWins
      nextWin := s.nextWin + 1
      external_win := some s.nextWin }

/-- `Window::set_position`: if `external_win` is `Some`, take it, move
the overlay out of it back onto the canvas and close the toplevel; then
store `x`, `y` raw, move the overlay to `(x.floor() as i32, y.floor() as
i32)` and request size `(w.ceil() as i32, h.ceil() as i32)`. -/
def set_position (s : Window) (x y w h : ℚ) : Window :=
  let s1 : Window :=
    match s.external_win with
    | some id =>
        { s with
          external_win := none
          overlayLoc := OverlayLoc.canvas
          openWins := s.openWins.erase id }
    | none => s
  { s1 with
    x := x
    y := y
    canvasMove := (⌊x⌋, ⌊y⌋)
    sizeReq := (⌈w⌉, ⌈h⌉) }

/-- `impl Drop for Window`: remove the overlay's child (the grid widget)
from the overlay without destroying it, remove the overlay from the
canvas (a no-op when the overlay is not a child of the canvas), and
close the external toplevel if there is one. -/
def drop (s : Window) : Window :=
  let s1 : Window :=
    match s.overlayChild with
    | some _ => { s with overlayChild := none }
    | none => s
  let s2 : Window :=
    if s1.overlayLoc = OverlayLoc.canvas then
      { s1 with overlayLoc := OverlayLoc.detached }
    else s1
  match s2.external_win with
  | some id => { s2 with openWins := s2.openWins.erase id }
  | none => s2

/-- Whether the overlay widget is currently in the canvas's child list. -/
def onCanvas (s : Window) : Bool :=
  match s.overlayLoc with
  | OverlayLoc.canvas => true
  | _ => false

/-- Bookkeeping invariant of the embedding: the open floating toplevels
are exactly the one recorded in `external_win` (at most one). It holds
for `Window.new` and is preserved by every operation. -/
def wf (s : Window) : Prop := s.openWins = s.external_win.toList

instance (s : Window) : Decidable s.wf := by
  unfold wf; infer_instance

end Window

/-- Pixel metrics of a grid, as returned by `grid.get_grid_metrics()`. -/
structure GridMetrics where
  cols : ℚ
  cell_width : ℚ
  cell_height : ℚ
deriving DecidableEq

/-- Reparenting side effects performed by `MsgWindow::set_pos` on the
frame's child widget. -/
inductive MsgEvent where
  | removeChild (w : ℕ)
  | unparentGrid (w : ℕ)
  | addChild (w : ℕ)
deriving DecidableEq

/-- State of the `MsgWindow` (frame inside the fixed canvas). -/
structure MsgWindow where
  frameChild : Option ℕ
  scrolled_class : Bool
  sizeReq : ℤ × ℤ
  framePos : ℤ × ℤ
deriving DecidableEq

namespace MsgWindow

/-- `MsgWindow::new`: frame put at `(0, 0)` with no child. -/
def new : MsgWindow :=
  { frameChild := none
    scrolled_class := false
    sizeReq := (-1, -1)
    framePos := (0, 0) }

/-- `MsgWindow::set_pos`: reparent the grid's widget into the frame only
when the current child differs; toggle the `"scrolled"` style class;
request size `((cols * cell_width).ceil() as i32, h.ceil() as i32)`;
move the frame to `(0, (cell_height as f64 * row) as i32)`. Returns the
new state and the reparenting events performed. -/
def set_pos (s : MsgWindow) (grid_widget : ℕ) (metrics : GridMetrics)
    (row h : ℚ) (scrolled : Bool) : MsgWindow × List MsgEvent :=
  let step1 : MsgWindow × List MsgEvent :=
    match s.frameChild with
    | some child =>
        if grid_widget ≠ child then
          ({ s with frameChild := some grid_widget },
           [MsgEvent.removeChild child, MsgEvent.unparentGrid grid_widget,
            MsgEvent.addChild grid_widget])
        else (s, [])
    | none =>
        ({ s with frameChild := some grid_widget },
         [MsgEvent.addChild grid_widget])
  let s2 : MsgWindow := { step1.1 with scrolled_class := scrolled }
  let w := metrics.cols * metrics.cell_width
  let s3 : MsgWindow :=
    { s2 with
      sizeReq := (⌈w⌉, ⌈h⌉)
      framePos := (0, f64toi32 (metrics.cell_height * row)) }
  (s3, step1.2)

end MsgWindow

/-! Theorems. -/

/-- Helper: the `as i32` truncation of an integer-valued `f64` is exact. -/
theorem f64toi32_intCast (n : ℤ) : f64toi32 (n : ℚ) = n := by
  unfold f64toi32
  split <;> simp

/-- Claim C1: for an unsuppressed adjustment value change with baseline
`last_value = L`, new value `N` and `cell_height = ch > 0`, the single
dispatched command is the one-row scroll primitive repeated
`|⌈(L - N) / ch⌉|` times, the forward primitive `"<C-e>"` when the delta
`⌈(L - N) / ch⌉` is negative and the backward primitive `"<C-y>"`
otherwise. -/
theorem scroll_rows_and_direction (s : Window) (N : ℚ)
    (hb : s.blocked = false) (hch : 0 < s.cell_height) :
    (Window.user_set_value s N).2 =
      [strRepeat
        (if (⌈(s.last_value - N) / s.cell_height⌉ : ℤ) < 0 then "<C-e>"
         else "<C-y>")
        (⌈(s.last_value - N) / s.cell_height⌉ : ℤ).natAbs] := by
  have hdiv : s.last_value / s.cell_height - N / s.cell_height
      = (s.last_value - N) / s.cell_height := (sub_div _ _ _).symm
  simp [Window.user_set_value, Window.emit_value_changed,
    Window.value_changed_cmd, hb, hdiv]

/-- Witness for C1: from baseline `30` with `cell_height = 10`, dragging
to `10` dispatches exactly the backward primitive repeated twice. -/
theorem scroll_rows_and_direction_witness :
    (Window.user_set_value
      { Window.new 0 1 with last_value := 30, cell_height := 10 } 10).2 =
      ["<C-y><C-y>"] := by
  have h := scroll_rows_and_direction
    { Window.new 0 1 with last_value := 30, cell_height := 10 } 10
    rfl (by norm_num)
  rw [h]
  norm_num [strRepeat]
  decide

/-- Claim C2: `set_adjustment` (the authoritative `configure` path) never
dispatches a remote scroll command as a side effect of the call itself:
the `value_changed` handler is blocked for the whole duration. -/
theorem set_adjustment_emits_nothing (s : Window)
    (value lower upper step_increment page_increment page_size
     cell_height : ℚ) :
    (Window.set_adjustment s value lower upper step_increment
      page_increment page_size cell_height).2 = [] := by
  simp [Window.set_adjustment, Window.emit_value_changed]

/-- Claim C3: with `cell_height = 0` (degenerate geometry, as in the
freshly constructed `Window`), an unsuppressed value change dispatches a
command containing zero scroll primitives (the empty string), rather
than propagating a fault. -/
theorem zero_cell_height_no_scroll (s : Window) (N : ℚ)
    (hb : s.blocked = false) (hch : s.cell_height = 0)
    (hL : 0 ≤ s.last_value) (hN : 0 ≤ N) :
    (Window.user_set_value s N).2 = [""] := by
  simp [Window.user_set_value, Window.emit_value_changed,
    Window.value_changed_cmd, hb, hch, strRepeat]

/-- Witness for C3: a freshly constructed `Window` has `cell_height = 0`;
dragging its adjustment to `5` dispatches the empty command. -/
theorem zero_cell_height_no_scroll_witness :
    (Window.user_set_value (Window.new 0 1) 5).2 = [""] :=
  zero_cell_height_no_scroll (Window.new 0 1) 5 rfl rfl le_rfl
    (by norm_num)

/-- Claim C10: every unsuppressed adjustment value change dispatches
exactly one asynchronous remote input call, unconditionally; when the
computed row delta is zero the call is still spawned and carries the
empty command string. -/
theorem value_change_always_dispatches (s : Window) (N : ℚ)
    (hb : s.blocked = false) :
    (Window.user_set_value s N).2.length = 1 ∧
    ((⌈s.last_value / s.cell_height - N / s.cell_height⌉ : ℤ) = 0 →
      (Window.user_set_value s N).2 = [""]) := by
  constructor
  · simp [Window.user_set_value, Window.emit_value_changed, hb]
  · intro hd
    simp [Window.user_set_value, Window.emit_value_changed,
      Window.value_changed_cmd, hb, hd, strRepeat]

/-- Witness for C10: from baseline `10` with `cell_height = 10`, dragging
to `15` gives row delta `⌈1 - 3/2⌉ = 0`, yet one remote call is spawned,
carrying the empty command. -/
theorem value_change_always_dispatches_witness :
    (Window.user_set_value
      { Window.new 0 1 with last_value := 10, cell_height := 10 } 15).2.length
        = 1 ∧
    (Window.user_set_value
      { Window.new 0 1 with last_value := 10, cell_height := 10 } 15).2
        = [""] := by
  have h := value_change_always_dispatches
    { Window.new 0 1 with last_value := 10, cell_height := 10 } 15 rfl
  exact ⟨h.1, h.2 (by norm_num)⟩

/-- Counterexample to claim C4 as stated: after
`set_position(1.2, 3.9, 10.1, 5.5)` the stored position field `x` is the
raw `1.2`, not `floor(1.2) = 1` — only the canvas `move_` coordinates are
floored. -/
theorem set_position_stored_not_floored :
    (Window.set_position (Window.new 0 1) 1.2 3.9 10.1 5.5).x = 1.2 ∧
    ¬ (Window.set_position (Window.new 0 1) 1.2 3.9 10.1 5.5).x = 1 := by
  constructor
  · rfl
  · intro h
    have : (1.2 : ℚ) = 1 := by
      rw [show (1.2 : ℚ)
          = (Window.set_position (Window.new 0 1) 1.2 3.9 10.1 5.5).x
        from rfl]
      exact h
    norm_num at this

/-- Claim C4 (amended): `set_position(x, y, w, h)` stores the raw `(x, y)`
in the position fields, moves the overlay on the canvas to
`(floor x, floor y)`, and requests content size `(ceil w, ceil h)`. -/
theorem set_position_rounding (s : Window) (x y w h : ℚ) :
    (Window.set_position s x y w h).x = x ∧
    (Window.set_position s x y w h).y = y ∧
    (Window.set_position s x y w h).canvasMove = (⌊x⌋, ⌊y⌋) ∧
    (Window.set_position s x y w h).sizeReq = (⌈w⌉, ⌈h⌉) := by
  rcases hE : s.external_win with _ | id <;>
    simp [Window.set_position, hE]

/-- Claim C5: `set_external` followed by `set_position` ends with the
window attached — `external_win` is cleared, the overlay is back in the
canvas, no floating toplevel remains open, and the grid widget is still
the overlay's child. -/
theorem float_then_position_reattaches (s : Window) (anchor : ℕ)
    (sz : ℤ × ℤ) (x y w h : ℚ) (hwf : s.wf) :
    (Window.set_position (Window.set_external s anchor sz) x y w h).external_win
        = none ∧
    (Window.set_position (Window.set_external s anchor sz) x y w h).overlayLoc
        = OverlayLoc.canvas ∧
    (Window.set_position (Window.set_external s anchor sz) x y w h).openWins
        = [] ∧
    (Window.set_position (Window.set_external s anchor sz) x y w h).overlayChild
        = s.overlayChild := by
  rcases hE : s.external_win with _ | id
  · have hw : s.openWins = [] := by simpa [Window.wf, hE] using hwf
    simp [Window.set_external, Window.set_position, hE, hw]
  · have hw : s.openWins = [id] := by simpa [Window.wf, hE] using hwf
    simp [Window.set_external, Window.set_position, hE, hw]

/-- Witness for C5: floating a fresh window and then repositioning it
lands in the attached configuration. -/
theorem float_then_position_reattaches_witness :
    (Window.set_position (Window.set_external (Window.new 0 1) 7 (100, 50))
        3 4 10 10).external_win = none ∧
    (Window.set_position (Window.set_external (Window.new 0 1) 7 (100, 50))
        3 4 10 10).overlayLoc = OverlayLoc.canvas ∧
    (Window.set_position (Window.set_external (Window.new 0 1) 7 (100, 50))
        3 4 10 10).openWins = [] ∧
    (Window.set_position (Window.set_external (Window.new 0 1) 7 (100, 50))
        3 4 10 10).overlayChild = (Window.new 0 1).overlayChild :=
  float_then_position_reattaches (Window.new 0 1) 7 (100, 50) 3 4 10 10
    (by decide)

/-- Claim C6: `set_external` on an already-floating window is a no-op (a
second call leaves the state exactly as the first left it), and after a
first `set_external` exactly one floating toplevel is open. -/
theorem set_external_idempotent (s : Window) (p q : ℕ)
    (sz sz2 : ℤ × ℤ) (hwf : s.wf) :
    Window.set_external (Window.set_external s p sz) q sz2
        = Window.set_external s p sz ∧
    (Window.set_external s p sz).openWins.length = 1 := by
  rcases hE : s.external_win with _ | id
  · have hw : s.openWins = [] := by simpa [Window.wf, hE] using hwf
    simp [Window.set_external, hE, hw]
  · have hw : s.openWins = [id] := by simpa [Window.wf, hE] using hwf
    simp [Window.set_external, hE, hw]

/-- Witness for C6: floating a fresh window twice equals floating it
once, with exactly one open floating toplevel. -/
theorem set_external_idempotent_witness :
    Window.set_external (Window.set_external (Window.new 0 1) 7 (100, 50))
        8 (60, 60)
      = Window.set_external (Window.new 0 1) 7 (100, 50) ∧
    (Window.set_external (Window.new 0 1) 7 (100, 50)).openWins.length = 1 :=
  set_external_idempotent (Window.new 0 1) 7 8 (100, 50) (60, 60) (by decide)

/-- Claim C7: the baseline `last_value` is written only by the
authoritative setter `set_adjustment` (which stores the configured
value); the `value_changed` emission path, `set_position`,
`set_external` and `drop` all leave it untouched. -/
theorem last_value_only_authoritative (s : Window)
    (value lower upper step_increment page_increment page_size
     cell_height v x y w h : ℚ) (p : ℕ) (sz : ℤ × ℤ) :
    (Window.set_adjustment s value lower upper step_increment
        page_increment page_size cell_height).1.last_value = value ∧
    (Window.user_set_value s v).1.last_value = s.last_value ∧
    (Window.set_position s x y w h).last_value = s.last_value ∧
    (Window.set_external s p sz).last_value = s.last_value ∧
    (Window.drop s).last_value = s.last_value := by
  refine ⟨rfl, rfl, ?_, ?_, ?_⟩
  · rcases hE : s.external_win with _ | id <;>
      simp [Window.set_position, hE]
  · by_cases hE : s.external_win.isSome <;>
      simp [Window.set_external, hE]
  · rcases hC : s.overlayChild with _ | g <;>
      rcases hE : s.external_win with _ | id <;>
        rcases hL : s.overlayLoc with _ | eid | _ <;>
          simp [Window.drop, hC, hE, hL]

/-- Claim C8: dropping a `Window` removes the grid widget from the
overlay without destroying it (`gridAlive` unchanged), takes the overlay
out of the canvas's child list, and closes any floating toplevel, so
none remains open. -/
theorem drop_detaches_without_destroying (s : Window) (hwf : s.wf) :
    (Window.drop s).overlayChild = none ∧
    (Window.drop s).gridAlive = s.gridAlive ∧
    (Window.drop s).onCanvas = false ∧
    (Window.drop s).openWins = [] := by
  have hw : s.openWins = s.external_win.toList := hwf
  rcases hC : s.overlayChild with _ | g <;>
    rcases hE : s.external_win with _ | id <;>
      rcases hL : s.overlayLoc with _ | eid | _ <;>
        simp [Window.drop, Window.onCanvas, hC, hE, hL, hw]

/-- Witness for C8: dropping a freshly floated window whose overlay holds
grid widget `0`. -/
theorem drop_detaches_without_destroying_witness :
    (Window.drop (Window.set_external (Window.new 0 1) 7 (100, 50))).overlayChild
        = none ∧
    (Window.drop (Window.set_external (Window.new 0 1) 7 (100, 50))).gridAlive
        = (Window.set_external (Window.new 0 1) 7 (100, 50)).gridAlive ∧
    (Window.drop (Window.set_external (Window.new 0 1) 7 (100, 50))).onCanvas
        = false ∧
    (Window.drop (Window.set_external (Window.new 0 1) 7 (100, 50))).openWins
        = [] :=
  drop_detaches_without_destroying
    (Window.set_external (Window.new 0 1) 7 (100, 50)) (by decide)

/-- Claim C9: a `MsgWindow.set_pos` call whose grid widget is already the
frame's child performs no reparenting events, still toggles the
`"scrolled"` class to the given flag, and moves the frame to
`(0, cell_height * row)` (exact whenever `cell_height * row` is an
integer `n`). -/
theorem msg_set_pos_same_child (s : MsgWindow) (g : ℕ) (m : GridMetrics)
    (row h : ℚ) (scrolled : Bool) (n : ℤ)
    (hchild : s.frameChild = some g)
    (hint : m.cell_height * row = (n : ℚ)) :
    (MsgWindow.set_pos s g m row h scrolled).2 = [] ∧
    (MsgWindow.set_pos s g m row h scrolled).1.scrolled_class = scrolled ∧
    (MsgWindow.set_pos s g m row h scrolled).1.framePos = (0, n) ∧
    (MsgWindow.set_pos s g m row h scrolled).1.frameChild = some g := by
  simp [MsgWindow.set_pos, hchild, hint, f64toi32_intCast]

/-- Witness for C9: with grid widget `3` already attached and
`cell_height = 16`, `set_pos` at `row = 5` reparents nothing and moves
the frame to `(0, 80)`. -/
theorem msg_set_pos_same_child_witness :
    (MsgWindow.set_pos { MsgWindow.new with frameChild := some 3 } 3
        ⟨80, 8, 16⟩ 5 20 true).2 = [] ∧
    (MsgWindow.set_pos { MsgWindow.new with frameChild := some 3 } 3
        ⟨80, 8, 16⟩ 5 20 true).1.scrolled_class = true ∧
    (MsgWindow.set_pos { MsgWindow.new with frameChild := some 3 } 3
        ⟨80, 8, 16⟩ 5 20 true).1.framePos = (0, 80) ∧
    (MsgWindow.set_pos { MsgWindow.new with frameChild := some 3 } 3
        ⟨80, 8, 16⟩ 5 20 true).1.frameChild = some 3 :=
  msg_set_pos_same_child { MsgWindow.new with frameChild := some 3 } 3
    ⟨80, 8, 16⟩ 5 20 true 80 rfl (by norm_num)

end Gnvim
